import Mathlib

/-
Shallow embedding of the provider core of the `q` CLI (Go):
`internal/providers/openai/openai.go` and `internal/providers/providers.go`.

Modelling conventions:
* Machine-level JSON (un)marshalling is abstracted by a `Codec` of parse
  oracles: `unmarshalChatResp` stands for `json.Unmarshal`/`Decode` into the
  `chatResp` struct, `unmarshalApiErr` for `json.Unmarshal` into `apiErr`;
  `none` models a decode error.  Every theorem quantifies over the codec.
* The injected HTTP transport (`httpclient.HTTPClient.Do`) is an oracle in the
  environment: either a transport failure or a response with a status code and
  a body string.  `SendResult.calls` counts how many times `Do` was invoked.
* `context.Context` cancellation is modelled by `doneAt : Option Nat`:
  `some k` means the `ctx.Done()` channel is observed closed from the `k`-th
  streaming-loop iteration onward (the select in `send` fires there);
  `none` means the context is never cancelled.
* The `onDelta` callback is modelled by `hasCallback : Bool`; the list of
  strings passed to it, in call order, is returned as `SendResult.emitted`
  (the output sink of `Stream`/`ChatStream` receives exactly these, in order).
* Go's `panic` in `Registry.Register` is modelled by `Option`: `none` is the
  panic outcome.
-/

/-- Whether `pat` occurs as a contiguous run inside `l`. -/
def charsInfix (pat : List Char) : List Char → Bool
  | [] => pat.isEmpty
  | c :: rest => pat.isPrefixOf (c :: rest) || charsInfix pat rest

/-- Go `strings.Contains s substr`. -/
def stringContains (s substr : String) : Bool :=
  charsInfix substr.data s.data

/-- Go `strings.HasPrefix s pre` (structural, so that the kernel can
evaluate it on concrete strings). -/
def strStartsWith (s pre : String) : Bool :=
  pre.data.isPrefixOf s.data

/-- Go `strings.TrimPrefix s pre`: `s` without the leading `pre`, or `s`
unchanged when `pre` is not a leading substring. -/
def trimPrefix (s pre : String) : String :=
  if strStartsWith s pre then ⟨s.data.drop pre.data.length⟩ else s

/-- Go `bufio.ScanLines` drops one trailing carriage return from each token. -/
def dropCR (s : String) : String :=
  if s.data.getLast? = some '\r' then ⟨s.data.dropLast⟩ else s

/-- Split a character stream at newline characters (each newline ends the
token before it). -/
def splitNL : List Char → List String
  | [] => [""]
  | c :: rest =>
    if c = '\n' then "" :: splitNL rest
    else
      match splitNL rest with
      | [] => [⟨[c]⟩]
      | t :: ts => ⟨c :: t.data⟩ :: ts

/-- The tokens a `bufio.Scanner` with `ScanLines` yields over a fully buffered
body: split at newlines, no empty final token when the body ends in a newline,
and a trailing carriage return is dropped from each line. -/
def scanLines (body : String) : List String :=
  let parts := splitNL body.data
  let parts := if parts.getLast? = some "" then parts.dropLast else parts
  parts.map dropCR

/-- `openai.Message`: one conversation turn (fields `Role`, `Content`). -/
structure Message where
  role : String
  content : String
deriving Repr, DecidableEq

/-- `openai.chatReq`: the JSON request body (fields `Model`, `Messages`,
`Stream`). -/
structure ChatReq where
  model : String
  messages : List Message
  stream : Bool
deriving Repr, DecidableEq

/-- One element of `chatResp.Choices`: `Message.Content` and `Delta.Content`. -/
structure Choice where
  message : String
  delta : String
deriving Repr, DecidableEq

/-- `openai.chatResp`: the decoded response / stream-chunk shape. -/
structure ChatResp where
  choices : List Choice
deriving Repr, DecidableEq

/-- `openai.apiErr.Error`: the decoded error body (fields `Message`, `Type`,
`Code`). -/
structure ApiErr where
  message : String
  errType : String
  code : String
deriving Repr, DecidableEq

/-- The distinct error outcomes the embedded code can produce.  Each
constructor corresponds to one `error` value constructed in the source:
`configErr` = an error from `config.GetAPIKey`; `noAPIKey` = the
`errKeyFmt` message for an empty key; `transport` = an error returned by the
injected client's `Do`; `invalidAPIKey` = `providers.InvalidAPIKeyError`;
`apiError` = `fmt.Errorf("API error: %s", ...)`; `httpStatus` =
`fmt.Errorf("API request failed with status %d: %s", ...)`; `decodeErr` = a
JSON decode error of the response body; `emptyResponse` =
`errors.New("openai: empty response")`; `cancelled` = `ctx.Err()`. -/
inductive Err where
  | configErr (msg : String)
  | noAPIKey (provider : String)
  | transport (msg : String)
  | invalidAPIKey (provider : String)
  | apiError (msg : String)
  | httpStatus (statusCode : Nat) (body : String)
  | decodeErr
  | emptyResponse
  | cancelled
deriving Repr, DecidableEq

/-- Parse oracles standing for `encoding/json` on the two shapes the code
decodes; `none` models a decode failure. -/
structure Codec where
  unmarshalChatResp : String → Option ChatResp
  unmarshalApiErr : String → Option ApiErr

/-- Outcome of the injected transport's `Do` call. -/
inductive TransportResult where
  | failure (msg : String)
  | success (statusCode : Nat) (body : String)
deriving Repr, DecidableEq

/-- The per-call environment of `send`: the `config.GetAPIKey` outcome, the
transport oracle, the JSON oracles, and the cancellation point. -/
structure Env where
  keyResult : Except String String
  transport : TransportResult
  codec : Codec
  doneAt : Option Nat

/-- `openai.handleAPIError`: classify a non-OK response.  If the body
unmarshals as an `apiErr`, a 401 status or an invalid-key code/message yields
`InvalidAPIKeyError`, anything else the generic `API error:` message;
a body that does not unmarshal yields the
`API request failed with status` error. -/
def handleAPIError (codec : Codec) (provider : String) (statusCode : Nat)
    (responseBody : String) : Err :=
  match codec.unmarshalApiErr responseBody with
  | some apiError =>
    if statusCode == 401
        || stringContains apiError.code "invalid_api_key"
        || stringContains apiError.message "Incorrect API key" then
      Err.invalidAPIKey provider
    else
      Err.apiError apiError.message
  | none => Err.httpStatus statusCode responseBody

/-- `openai.ssePrefix`. -/
def ssePrefix : String := "data: "

/-- Whether the `ctx.Done()` select observes the context closed at
loop-iteration `i`. -/
def ctxDone (doneAt : Option Nat) (i : Nat) : Bool :=
  match doneAt with
  | none => false
  | some k => decide (k ≤ i)

/-- What the streaming loop of `send` produces: the deltas handed to the
`onDelta` callback in call order, the `fullResponse` accumulator, and the
returned error (`none` = nil). -/
structure StreamOut where
  emitted : List String
  full : String
  err : Option Err
deriving Repr, DecidableEq

/-- The streaming loop of `openai.send` (the `for scanner.Scan()` loop):
per scanned line, first the cancellation select, then the `ssePrefix` filter,
the `[DONE]` sentinel check, the chunk unmarshal (a failure or a chunk with
zero choices is skipped), and finally the first choice's delta content is
passed to the callback (when present) and appended to `fullResponse`.
`i` counts loop iterations, `full` and `em` are the accumulators. -/
def streamLoop (codec : Codec) (doneAt : Option Nat) (hasCallback : Bool) :
    List String → Nat → String → List String → StreamOut
  | [], _, full, em => ⟨em, full, none⟩
  | line :: rest, i, full, em =>
    if ctxDone doneAt i then ⟨em, full, some Err.cancelled⟩
    else if !strStartsWith line ssePrefix then
      streamLoop codec doneAt hasCallback rest (i + 1) full em
    else if trimPrefix line ssePrefix = "[DONE]" then ⟨em, full, none⟩
    else
      match codec.unmarshalChatResp (trimPrefix line ssePrefix) with
      | none => streamLoop codec doneAt hasCallback rest (i + 1) full em
      | some chunk =>
        match chunk.choices with
        | [] => streamLoop codec doneAt hasCallback rest (i + 1) full em
        | c :: _ =>
          streamLoop codec doneAt hasCallback rest (i + 1) (full ++ c.delta)
            (if hasCallback then em ++ [c.delta] else em)

/-- The result of one `send` call: the returned string, the returned error
(`none` = nil), the deltas handed to `onDelta` in order, how many times the
transport's `Do` ran, and the request it was given (when it ran). -/
structure SendResult where
  value : String
  error : Option Err
  emitted : List String
  calls : Nat
  request : Option ChatReq
deriving Repr, DecidableEq

/-- `openai.Provider.send`: the single request path shared by `Prompt`,
`Stream`, `ChatPrompt` and `ChatStream`.  Key lookup and empty-key
short-circuit come first (before any transport call); then the transport runs
once; a non-OK status is classified by `handleAPIError`; the non-streaming
branch decodes `chatResp` and requires a first choice with non-empty message
content; the streaming branch runs `streamLoop` over the scanned lines. -/
def send (env : Env) (providerName model : String) (msgs : List Message)
    (stream hasCallback : Bool) : SendResult :=
  match env.keyResult with
  | .error e => ⟨"", some (.configErr e), [], 0, none⟩
  | .ok key =>
    if key = "" then ⟨"", some (.noAPIKey providerName), [], 0, none⟩
    else
      let req : ChatReq := ⟨model, msgs, stream⟩
      match env.transport with
      | .failure msg => ⟨"", some (.transport msg), [], 1, some req⟩
      | .success statusCode body =>
        if statusCode ≠ 200 then
          ⟨"", some (handleAPIError env.codec providerName statusCode body),
            [], 1, some req⟩
        else if !stream then
          match env.codec.unmarshalChatResp body with
          | none => ⟨"", some .decodeErr, [], 1, some req⟩
          | some response =>
            match response.choices with
            | [] => ⟨"", some .emptyResponse, [], 1, some req⟩
            | c :: _ =>
              if c.message = "" then ⟨"", some .emptyResponse, [], 1, some req⟩
              else ⟨c.message, none, [], 1, some req⟩
        else
          let out := streamLoop env.codec env.doneAt hasCallback (scanLines body) 0 "" []
          ⟨out.full, out.err, out.emitted, 1, some req⟩

/-- Concatenation of a list of strings in order (what a `strings.Builder`
holds after writing each element). -/
def strJoin : List String → String
  | [] => ""
  | s :: rest => s ++ strJoin rest

namespace openai

/-- The mutable state of an `openai.Provider` instance: its conversation
history. -/
structure Provider where
  history : List Message
deriving Repr, DecidableEq

/-- `Provider.Name()`. -/
def name : String := "openai"

/-- `Provider.push`: append one message to the history. -/
def push (p : Provider) (role content : String) : Provider :=
  ⟨p.history ++ [⟨role, content⟩]⟩

/-- `Provider.copyHistory`: a defensive copy of the history (value-equal to
it). -/
def copyHistory (p : Provider) : List Message := p.history

/-- `Provider.Prompt`: one-shot, non-streaming, no callback, history
untouched. -/
def Prompt (env : Env) (model prompt : String) : SendResult :=
  send env name model [⟨"user", prompt⟩] false false

/-- `Provider.Stream`: one-shot streaming; the callback prints each delta and
appends it to `out`; the method returns `out.String()` and `send`'s error. -/
def Stream (env : Env) (model prompt : String) : SendResult :=
  let r := send env name model [⟨"user", prompt⟩] true true
  { r with value := strJoin r.emitted }

/-- `Provider.ChatPrompt`: push the user message, send the whole history,
and push the assistant reply only when the send returned nil error. -/
def ChatPrompt (env : Env) (p : Provider) (model msg : String) :
    SendResult × Provider :=
  let p1 := push p "user" msg
  let r := send env name model (copyHistory p1) false false
  match r.error with
  | none => (r, push p1 "assistant" r.value)
  | some _ => (r, p1)

/-- `Provider.ChatStream`: push the user message, send the whole history in
streaming mode, return `out.String()` and the error, and push the assistant
message only when the error is nil and the accumulated output is non-empty. -/
def ChatStream (env : Env) (p : Provider) (model msg : String) :
    SendResult × Provider :=
  let p1 := push p "user" msg
  let r := send env name model (copyHistory p1) true true
  let out := strJoin r.emitted
  let ret := { r with value := out }
  if r.error = none ∧ out ≠ "" then (ret, push p1 "assistant" out) else (ret, p1)

/-- `Provider.ResetChat`: clear the history. -/
def ResetChat (_p : Provider) : Provider := ⟨[]⟩

end openai

namespace providers

/-- A registered provider as the registry sees it: its `Name()`. -/
structure ProviderInfo where
  name : String
deriving Repr, DecidableEq

/-- `providers.Registry`: the `name → Provider` map, modelled as an
association list whose keys stay unique. -/
structure Registry where
  data : List (String × ProviderInfo)
deriving Repr, DecidableEq

/-- `providers.NewRegistry`. -/
def NewRegistry : Registry := ⟨[]⟩

/-- One iteration of `Registry.Register`'s loop: `none` models the
`panic("provider already registered: " + name)`. -/
def registerOne (r : Registry) (p : ProviderInfo) : Option Registry :=
  if (r.data.lookup p.name).isSome then none
  else some ⟨r.data ++ [(p.name, p)]⟩

/-- `Registry.Register`: bind each provider under its name in order; the
whole call panics (`none`) as soon as a name is already bound. -/
def Register (r : Registry) (ps : List ProviderInfo) : Option Registry :=
  ps.foldlM registerOne r

/-- `Registry.Lookup`. -/
def Lookup (r : Registry) (n : String) : Option ProviderInfo :=
  r.data.lookup n

end providers

/-- Modelled from the spec, section 4.4: the text deltas of the well-formed
data frames received before the sentinel, in arrival order — a line without
the frame marker is ignored, the sentinel stops the scan, a payload that fails
to parse or has zero choices contributes nothing. -/
def specDeltas (codec : Codec) : List String → List String
  | [] => []
  | line :: rest =>
    if !strStartsWith line ssePrefix then specDeltas codec rest
    else if trimPrefix line ssePrefix = "[DONE]" then []
    else
      match codec.unmarshalChatResp (trimPrefix line ssePrefix) with
      | none => specDeltas codec rest
      | some chunk =>
        match chunk.choices with
        | [] => specDeltas codec rest
        | c :: _ => c.delta :: specDeltas codec rest

/-- Whether a line is the sentinel frame `data: [DONE]`. -/
def isSentinel (line : String) : Bool :=
  strStartsWith line ssePrefix && trimPrefix line ssePrefix == "[DONE]"

/- Concrete fixtures (fake transports, parse oracles and environments) used by
the witness theorems below.  The parse oracles use brace-free payload tokens;
each oracle records what `encoding/json` yields on that payload. -/

/-- An environment whose key lookup succeeds with the empty key (no API key
configured for the provider). -/
def envNoKey : Env :=
  ⟨Except.ok "", TransportResult.failure "unused", ⟨fun _ => none, fun _ => none⟩, none⟩

/-- Oracle for a body decoding to one choice with message content `A1`. -/
def okCodec1 : Codec :=
  ⟨fun s => if s = "resp-1" then some ⟨[⟨"A1", ""⟩]⟩ else none, fun _ => none⟩

/-- Oracle for a body decoding to one choice with message content `A2`. -/
def okCodec2 : Codec :=
  ⟨fun s => if s = "resp-2" then some ⟨[⟨"A2", ""⟩]⟩ else none, fun _ => none⟩

/-- A successful non-streaming environment answering `A1`. -/
def envOk1 : Env := ⟨Except.ok "key", TransportResult.success 200 "resp-1", okCodec1, none⟩

/-- A successful non-streaming environment answering `A2`. -/
def envOk2 : Env := ⟨Except.ok "key", TransportResult.success 200 "resp-2", okCodec2, none⟩

/-- An oracle on which every decode fails. -/
def c4Codec : Codec := ⟨fun _ => none, fun _ => none⟩

/-- A streamed response holding only the sentinel frame: well formed and
contentless. -/
def envC4 : Env :=
  ⟨Except.ok "key", TransportResult.success 200 "data: [DONE]\n", c4Codec, none⟩

/-- Oracle for the two stream chunks carrying deltas `h` and `i`. -/
def hiCodec : Codec :=
  ⟨fun s =>
    if s = "chunk-h" then some ⟨[⟨"", "h"⟩]⟩
    else if s = "chunk-i" then some ⟨[⟨"", "i"⟩]⟩
    else none,
  fun _ => none⟩

/-- The spec's example stream: a `h` delta frame, an `i` delta frame, the
sentinel. -/
def hiBody : String := "data: chunk-h\ndata: chunk-i\ndata: [DONE]\n"

/-- Streaming environment over `hiBody`, never cancelled. -/
def envHi : Env := ⟨Except.ok "key", TransportResult.success 200 hiBody, hiCodec, none⟩

/-- Streaming environment whose stream ends before contributing any text. -/
def envEmptyStream : Env :=
  ⟨Except.ok "key", TransportResult.success 200 "data: [DONE]\n", hiCodec, none⟩

/-- Streaming environment over `hiBody` whose context is observed cancelled
from the second loop iteration on. -/
def envCancel : Env := ⟨Except.ok "key", TransportResult.success 200 hiBody, hiCodec, some 1⟩

/-- A stream with one delta frame, the sentinel, then a further delta frame
that must be ignored. -/
def sentBody1 : String := "data: chunk-h\ndata: [DONE]\ndata: chunk-i\n"

/-- The same stream truncated right after the sentinel. -/
def sentBody2 : String := "data: chunk-h\ndata: [DONE]\n"

/-- Environment streaming `sentBody1`. -/
def envSent1 : Env := ⟨Except.ok "key", TransportResult.success 200 sentBody1, hiCodec, none⟩

/-- Environment streaming `sentBody2`. -/
def envSent2 : Env := ⟨Except.ok "key", TransportResult.success 200 sentBody2, hiCodec, none⟩

/-- A registry that already holds a provider named `openai`. -/
def dupRegistry : providers.Registry := ⟨[("openai", ⟨"openai"⟩)]⟩

/-- A 401 response whose body is not valid JSON. -/
def envStatus401 : Env :=
  ⟨Except.ok "key", TransportResult.success 401 "invalid json response", c4Codec, none⟩

/-- Oracle for a body decoding to zero choices. -/
def emptyChoicesCodec : Codec :=
  ⟨fun s => if s = "empty-choices" then some ⟨[]⟩ else none, fun _ => none⟩

/-- Non-streaming environment returning a payload with zero choices. -/
def envEmptyChoices : Env :=
  ⟨Except.ok "key", TransportResult.success 200 "empty-choices", emptyChoicesCodec, none⟩

/-- Oracle for a body decoding to one choice with empty message content. -/
def blankContentCodec : Codec :=
  ⟨fun s => if s = "blank-content" then some ⟨[⟨"", ""⟩]⟩ else none, fun _ => none⟩

/-- Non-streaming environment returning one choice with empty content. -/
def envBlankContent : Env :=
  ⟨Except.ok "key", TransportResult.success 200 "blank-content", blankContentCodec, none⟩

/- Helper lemmas shared by several claim proofs. -/

/-- Without cancellation, the streaming loop ends with a nil error, appends
exactly the spec-level deltas to the callback trace (when a callback is
present), and appends their concatenation to the accumulator. -/
theorem streamLoop_no_cancel (codec : Codec) (cb : Bool) :
    ∀ (lines : List String) (i : Nat) (full : String) (em : List String),
    streamLoop codec none cb lines i full em =
      ⟨em ++ (if cb then specDeltas codec lines else []),
        full ++ strJoin (specDeltas codec lines), none⟩ := by
  intro lines
  induction lines with
  | nil =>
    intro i full em
    simp [streamLoop, specDeltas, strJoin, String.append_empty]
  | cons line rest ih =>
    intro i full em
    cases hsw : strStartsWith line ssePrefix with
    | false => simp [streamLoop, specDeltas, ctxDone, hsw, ih]
    | true =>
      by_cases hd : trimPrefix line ssePrefix = "[DONE]"
      · simp [streamLoop, specDeltas, ctxDone, hsw, hd, strJoin, String.append_empty]
      · cases hun : codec.unmarshalChatResp (trimPrefix line ssePrefix) with
        | none => simp [streamLoop, specDeltas, ctxDone, hsw, hd, hun, ih]
        | some chunk =>
          cases hch : chunk.choices with
          | nil => simp [streamLoop, specDeltas, ctxDone, hsw, hd, hun, hch, ih]
          | cons c cs =>
            simp [streamLoop, specDeltas, ctxDone, hsw, hd, hun, hch, ih, strJoin,
              String.append_assoc]
            cases cb <;> simp

/-- When the context is observed cancelled at the `n`-th loop iteration, and
the first `n` lines hold no sentinel, the loop returns exactly the deltas of
those first `n` lines together with the cancellation error. -/
theorem streamLoop_cancelled (codec : Codec) (cb : Bool) :
    ∀ (n : Nat) (lines : List String) (i : Nat) (full : String) (em : List String),
    n < lines.length →
    ((lines.take n).all fun l => !isSentinel l) = true →
    streamLoop codec (some (i + n)) cb lines i full em =
      ⟨em ++ (if cb then specDeltas codec (lines.take n) else []),
        full ++ strJoin (specDeltas codec (lines.take n)), some Err.cancelled⟩ := by
  intro n
  induction n with
  | zero =>
    intro lines i full em hlen _hall
    cases lines with
    | nil => simp at hlen
    | cons line rest =>
      simp [streamLoop, ctxDone, specDeltas, strJoin, String.append_empty]
  | succ n ih =>
    intro lines i full em hlen hall
    cases lines with
    | nil => simp at hlen
    | cons line rest =>
      simp only [List.take_succ_cons, List.all_cons, Bool.and_eq_true] at hall
      obtain ⟨hline, hrest⟩ := hall
      have hkey : i + (n + 1) = (i + 1) + n := by omega
      have hlen2 : n < rest.length := by simp at hlen; omega
      rw [hkey]
      have hc : ctxDone (some ((i + 1) + n)) i = false := by
        simp only [ctxDone, decide_eq_false_iff_not]; omega
      cases hsw : strStartsWith line ssePrefix with
      | false =>
        simp [streamLoop, hc, hkey, hsw, specDeltas, ih rest (i + 1) full em hlen2 hrest]
      | true =>
        have hd : trimPrefix line ssePrefix ≠ "[DONE]" := by
          simp [isSentinel, hsw] at hline
          simpa using hline
        cases hun : codec.unmarshalChatResp (trimPrefix line ssePrefix) with
        | none =>
          simp [streamLoop, hc, hkey, hsw, hd, hun, specDeltas,
            ih rest (i + 1) full em hlen2 hrest]
        | some chunk =>
          cases hch : chunk.choices with
          | nil =>
            simp [streamLoop, hc, hkey, hsw, hd, hun, hch, specDeltas,
              ih rest (i + 1) full em hlen2 hrest]
          | cons c cs =>
            simp [streamLoop, hc, hkey, hsw, hd, hun, hch, specDeltas, strJoin,
              String.append_assoc, ih rest (i + 1) (full ++ c.delta)
                (if cb then em ++ [c.delta] else em) hlen2 hrest]
            cases cb <;> simp

/-- A sentinel line carries the frame marker and trims to the sentinel
payload. -/
theorem isSentinel_spec (s : String) (hs : isSentinel s = true) :
    strStartsWith s ssePrefix = true ∧ trimPrefix s ssePrefix = "[DONE]" := by
  simp [isSentinel, Bool.and_eq_true, beq_iff_eq] at hs
  exact hs

/-- Everything after the first sentinel line is irrelevant to the streaming
loop. -/
theorem streamLoop_sentinel (codec : Codec) (doneAt : Option Nat) (cb : Bool)
    (s : String) (hs : isSentinel s = true) :
    ∀ (l1 l2 l2' : List String) (i : Nat) (full : String) (em : List String),
    streamLoop codec doneAt cb (l1 ++ s :: l2) i full em =
      streamLoop codec doneAt cb (l1 ++ s :: l2') i full em := by
  obtain ⟨hsw, hd⟩ := isSentinel_spec s hs
  intro l1
  induction l1 with
  | nil =>
    intro l2 l2' i full em
    cases hc : ctxDone doneAt i with
    | true => simp [streamLoop, hc]
    | false => simp [streamLoop, hc, hsw, hd]
  | cons line rest ih =>
    intro l2 l2' i full em
    cases hc : ctxDone doneAt i with
    | true => simp [streamLoop, hc]
    | false =>
      cases hsw2 : strStartsWith line ssePrefix with
      | false =>
        simp only [streamLoop, hc, hsw2, List.cons_append, Bool.false_eq_true,
          if_false, Bool.not_false, if_true]
        exact ih l2 l2' (i + 1) full em
      | true =>
        by_cases hd2 : trimPrefix line ssePrefix = "[DONE]"
        · simp [streamLoop, hc, hsw2, hd2]
        · cases hun : codec.unmarshalChatResp (trimPrefix line ssePrefix) with
          | none =>
            simp only [streamLoop, hc, hsw2, hd2, hun, List.cons_append,
              Bool.false_eq_true, if_false, Bool.not_true, if_true]
            exact ih l2 l2' (i + 1) full em
          | some chunk =>
            cases hch : chunk.choices with
            | nil =>
              simp only [streamLoop, hc, hsw2, hd2, hun, hch, List.cons_append,
                Bool.false_eq_true, if_false, Bool.not_true, if_true]
              exact ih l2 l2' (i + 1) full em
            | cons c cs =>
              simp only [streamLoop, hc, hsw2, hd2, hun, hch, List.cons_append,
                Bool.false_eq_true, if_false, Bool.not_true, if_true]
              exact ih l2 l2' (i + 1) (full ++ c.delta)
                (if cb then em ++ [c.delta] else em)

/-- A `send` call either short-circuits before the transport (zero calls, no
request) or performs exactly one transport call with the request built from
its arguments. -/
theorem send_shape (env : Env) (providerName model : String)
    (msgs : List Message) (stream cb : Bool) :
    ((send env providerName model msgs stream cb).calls = 0 ∧
      (send env providerName model msgs stream cb).request = none) ∨
    ((send env providerName model msgs stream cb).calls = 1 ∧
      (send env providerName model msgs stream cb).request =
        some ⟨model, msgs, stream⟩) := by
  unfold send
  cases hkr : env.keyResult with
  | error e => simp
  | ok key =>
    by_cases hk : key = ""
    · simp [hk]
    · simp only [hk, if_false]
      cases htr : env.transport with
      | failure m => simp
      | success status body =>
        by_cases hst : status ≠ 200
        · simp [hst]
        · simp only [hst, if_false]
          cases stream
          · simp only [Bool.not_false, if_true]
            cases hr : env.codec.unmarshalChatResp body with
            | none => simp
            | some resp =>
              cases hch : resp.choices with
              | nil => simp [hch]
              | cons c cs => by_cases hc : c.message = "" <;> simp [hch, hc]
          · simp

/-- In streaming mode under a valid key and an OK response, `send` is the
streaming loop over the scanned body lines. -/
theorem send_stream (env : Env) (providerName model key body : String)
    (msgs : List Message) (cb : Bool)
    (hkr : env.keyResult = Except.ok key) (hk : key ≠ "")
    (htr : env.transport = TransportResult.success 200 body) :
    send env providerName model msgs true cb =
      ⟨(streamLoop env.codec env.doneAt cb (scanLines body) 0 "" []).full,
        (streamLoop env.codec env.doneAt cb (scanLines body) 0 "" []).err,
        (streamLoop env.codec env.doneAt cb (scanLines body) 0 "" []).emitted,
        1, some ⟨model, msgs, true⟩⟩ := by
  simp only [send, hkr, htr]
  rw [if_neg hk]
  simp

/-- The pair component `ChatStream` returns is, in both branches, the `send`
result with its value replaced by the accumulated callback output. -/
theorem chatStream_fst (env : Env) (p : openai.Provider) (model msg : String) :
    (openai.ChatStream env p model msg).1 =
      { send env openai.name model (p.history ++ [⟨"user", msg⟩]) true true with
        value :=
          strJoin
            (send env openai.name model (p.history ++ [⟨"user", msg⟩]) true true).emitted } := by
  simp only [openai.ChatStream, openai.copyHistory, openai.push]
  split
  · rfl
  · rfl

/-- A key found in the left part of an association list is found in the
whole. -/
theorem lookup_append_isSome {β : Type} (l1 l2 : List (String × β)) (k : String)
    (h : (l1.lookup k).isSome = true) : ((l1 ++ l2).lookup k).isSome = true := by
  induction l1 with
  | nil => simp [List.lookup] at h
  | cons p rest ih =>
    obtain ⟨a, b⟩ := p
    simp only [List.cons_append, List.lookup] at h ⊢
    cases hk : k == a with
    | true => simp
    | false => rw [hk] at h; exact ih h

/-- A key absent from the left part of an association list is looked up in the
right part. -/
theorem lookup_append_none {β : Type} (l1 l2 : List (String × β)) (k : String)
    (h : l1.lookup k = none) : (l1 ++ l2).lookup k = l2.lookup k := by
  induction l1 with
  | nil => simp
  | cons p rest ih =>
    obtain ⟨a, b⟩ := p
    simp only [List.cons_append, List.lookup] at h ⊢
    cases hk : k == a with
    | true => rw [hk] at h; simp at h
    | false => rw [hk] at h; exact ih h

/-- Claim C1: for every streamed response consumed by `Stream` or `ChatStream`
(valid key, OK status, context never cancelled), the deltas handed to the
output sink are exactly the text deltas of the well-formed data frames
received before the sentinel, in arrival order, and the returned string is
their concatenation; in particular the error is nil. -/
theorem stream_accumulates_deltas (env : Env) (key model prompt msg body : String)
    (p : openai.Provider)
    (hkr : env.keyResult = Except.ok key) (hk : key ≠ "")
    (htr : env.transport = TransportResult.success 200 body)
    (hdone : env.doneAt = none) :
    ((openai.Stream env model prompt).emitted = specDeltas env.codec (scanLines body) ∧
      (openai.Stream env model prompt).value =
        strJoin (specDeltas env.codec (scanLines body)) ∧
      (openai.Stream env model prompt).error = none) ∧
    ((openai.ChatStream env p model msg).1.emitted = specDeltas env.codec (scanLines body) ∧
      (openai.ChatStream env p model msg).1.value =
        strJoin (specDeltas env.codec (scanLines body)) ∧
      (openai.ChatStream env p model msg).1.error = none) := by
  have hs1 := send_stream env openai.name model key body [⟨"user", prompt⟩] true hkr hk htr
  have hs2 := send_stream env openai.name model key body (p.history ++ [⟨"user", msg⟩]) true
    hkr hk htr
  have hloop := streamLoop_no_cancel env.codec true (scanLines body) 0 "" []
  rw [hdone] at hs1 hs2
  rw [hloop] at hs1 hs2
  constructor
  · simp [openai.Stream, hs1, String.empty_append]
  · rw [chatStream_fst env p model msg]
    simp [hs2, String.empty_append]

/-- Claim C1 witness: on the spec's fake transport emitting deltas `h` then
`i` then the sentinel, `Stream` emits `h`, `i` to the sink and returns `hi`,
and `ChatStream` accumulates the same `hi`. -/
theorem stream_accumulates_deltas_witness :
    (openai.Stream envHi "gpt-4o" "hi").emitted = ["h", "i"] ∧
    (openai.Stream envHi "gpt-4o" "hi").value = "hi" ∧
    (openai.Stream envHi "gpt-4o" "hi").error = none ∧
    (openai.ChatStream envHi ⟨[]⟩ "gpt-4o" "Hello").1.value = "hi" := by
  have h := stream_accumulates_deltas envHi "key" "gpt-4o" "hi" "Hello" hiBody ⟨[]⟩
    rfl (by decide) rfl rfl
  exact ⟨h.1.1.trans (by decide), h.1.2.1.trans (by decide), h.1.2.2,
    h.2.2.1.trans (by decide)⟩

/-- Claim C2: `ChatPrompt` appends the user message to the history before the
request is issued (the request, when one is made, carries the prior history
plus that user message); on success the assistant reply is then appended, on
failure only the user message remains; hence two successful calls in sequence
starting from an empty history leave exactly user₁, assistant₁, user₂,
assistant₂. -/
theorem chatPrompt_appends_user_then_assistant :
    (∀ (env : Env) (p : openai.Provider) (model msg : String),
      ((openai.ChatPrompt env p model msg).1.calls = 1 →
        (openai.ChatPrompt env p model msg).1.request =
          some ⟨model, p.history ++ [⟨"user", msg⟩], false⟩) ∧
      ((openai.ChatPrompt env p model msg).1.error = none →
        (openai.ChatPrompt env p model msg).2.history =
          p.history ++ [⟨"user", msg⟩,
            ⟨"assistant", (openai.ChatPrompt env p model msg).1.value⟩]) ∧
      ((openai.ChatPrompt env p model msg).1.error ≠ none →
        (openai.ChatPrompt env p model msg).2.history =
          p.history ++ [⟨"user", msg⟩])) ∧
    (∀ (env1 env2 : Env) (model m1 m2 : String),
      (openai.ChatPrompt env1 ⟨[]⟩ model m1).1.error = none →
      (openai.ChatPrompt env2 (openai.ChatPrompt env1 ⟨[]⟩ model m1).2 model m2).1.error =
        none →
      (openai.ChatPrompt env2 (openai.ChatPrompt env1 ⟨[]⟩ model m1).2 model m2).2.history =
        [⟨"user", m1⟩,
          ⟨"assistant", (openai.ChatPrompt env1 ⟨[]⟩ model m1).1.value⟩,
          ⟨"user", m2⟩,
          ⟨"assistant",
            (openai.ChatPrompt env2 (openai.ChatPrompt env1 ⟨[]⟩ model m1).2 model
                m2).1.value⟩]) := by
  have main : ∀ (env : Env) (p : openai.Provider) (model msg : String),
      ((openai.ChatPrompt env p model msg).1.calls = 1 →
        (openai.ChatPrompt env p model msg).1.request =
          some ⟨model, p.history ++ [⟨"user", msg⟩], false⟩) ∧
      ((openai.ChatPrompt env p model msg).1.error = none →
        (openai.ChatPrompt env p model msg).2.history =
          p.history ++ [⟨"user", msg⟩,
            ⟨"assistant", (openai.ChatPrompt env p model msg).1.value⟩]) ∧
      ((openai.ChatPrompt env p model msg).1.error ≠ none →
        (openai.ChatPrompt env p model msg).2.history =
          p.history ++ [⟨"user", msg⟩]) := by
    intro env p model msg
    have hreq := send_shape env openai.name model (p.history ++ [⟨"user", msg⟩]) false false
    simp only [openai.ChatPrompt, openai.copyHistory, openai.push]
    cases hr : (send env openai.name model (p.history ++ [⟨"user", msg⟩]) false false).error with
    | none =>
      simp only [hr]
      refine ⟨?_, ?_, ?_⟩
      · intro hcalls
        rcases hreq with ⟨h0, _⟩ | ⟨_, hsome⟩
        · rw [h0] at hcalls; exact absurd hcalls (by simp)
        · exact hsome
      · intro _; simp
      · intro hne; exact absurd rfl hne
    | some e =>
      simp only [hr]
      refine ⟨?_, ?_, ?_⟩
      · intro hcalls
        rcases hreq with ⟨h0, _⟩ | ⟨_, hsome⟩
        · rw [h0] at hcalls; exact absurd hcalls (by simp)
        · exact hsome
      · intro hnone; exact absurd hnone (by simp)
      · intro _; simp
  refine ⟨main, ?_⟩
  intro env1 env2 model m1 m2 h1 h2
  have A := (main env1 ⟨[]⟩ model m1).2.1 h1
  have B := (main env2 (openai.ChatPrompt env1 ⟨[]⟩ model m1).2 model m2).2.1 h2
  rw [B, A]
  simp

/-- Claim C2 witness: two successful `ChatPrompt` calls on a fresh instance,
answered `A1` then `A2`, leave the four-message history in order. -/
theorem chatPrompt_appends_witness :
    (openai.ChatPrompt envOk2 (openai.ChatPrompt envOk1 ⟨[]⟩ "gpt-4o" "Hello").2
        "gpt-4o" "Again").2.history =
      [⟨"user", "Hello"⟩, ⟨"assistant", "A1"⟩, ⟨"user", "Again"⟩, ⟨"assistant", "A2"⟩] := by
  have h := chatPrompt_appends_user_then_assistant.2 envOk1 envOk2 "gpt-4o" "Hello" "Again"
    (by decide) (by decide)
  exact h.trans (by decide)

/-- Claim C3: with no API key configured (the key lookup succeeds with the
empty string), `Prompt`, `Stream`, `ChatPrompt` and `ChatStream` all fail with
the configuration error and never invoke the transport (zero calls). -/
theorem noKey_short_circuits (env : Env) (model prompt msg : String)
    (p : openai.Provider) (h : env.keyResult = Except.ok "") :
    ((openai.Prompt env model prompt).error = some (Err.noAPIKey "openai") ∧
      (openai.Prompt env model prompt).calls = 0) ∧
    ((openai.Stream env model prompt).error = some (Err.noAPIKey "openai") ∧
      (openai.Stream env model prompt).calls = 0) ∧
    ((openai.ChatPrompt env p model msg).1.error = some (Err.noAPIKey "openai") ∧
      (openai.ChatPrompt env p model msg).1.calls = 0) ∧
    ((openai.ChatStream env p model msg).1.error = some (Err.noAPIKey "openai") ∧
      (openai.ChatStream env p model msg).1.calls = 0) := by
  simp [openai.Prompt, openai.Stream, openai.ChatPrompt, openai.ChatStream,
    send, h, openai.name]

/-- Claim C3 witness: the four operations on `envNoKey` fail with the
configuration error and a transport call count of zero. -/
theorem noKey_short_circuits_witness :
    ((openai.Prompt envNoKey "gpt-4o" "hi").error = some (Err.noAPIKey "openai") ∧
      (openai.Prompt envNoKey "gpt-4o" "hi").calls = 0) ∧
    ((openai.Stream envNoKey "gpt-4o" "hi").error = some (Err.noAPIKey "openai") ∧
      (openai.Stream envNoKey "gpt-4o" "hi").calls = 0) ∧
    ((openai.ChatPrompt envNoKey ⟨[]⟩ "gpt-4o" "m").1.error = some (Err.noAPIKey "openai") ∧
      (openai.ChatPrompt envNoKey ⟨[]⟩ "gpt-4o" "m").1.calls = 0) ∧
    ((openai.ChatStream envNoKey ⟨[]⟩ "gpt-4o" "m").1.error = some (Err.noAPIKey "openai") ∧
      (openai.ChatStream envNoKey ⟨[]⟩ "gpt-4o" "m").1.calls = 0) :=
  noKey_short_circuits envNoKey "gpt-4o" "hi" "m" ⟨[]⟩ rfl

/-- Claim C4 counterexample: a well-formed but contentless stream (only the
sentinel frame) makes `Stream` succeed with the empty string and a nil error —
it does not fail with the empty-response error the claim asserts. -/
theorem stream_contentless_no_error_counterexample :
    (openai.Stream envC4 "gpt-4o" "hi").error ≠ some Err.emptyResponse ∧
    (openai.Stream envC4 "gpt-4o" "hi").error = none ∧
    (openai.Stream envC4 "gpt-4o" "hi").value = "" := by
  refine ⟨?_, ?_, ?_⟩ <;> decide

/-- Claim C4 (amended): a well-formed contentless stream is not an error for
`Stream` — it returns the empty string with a nil error; the empty-response
error arises only on the non-streaming path, where `Prompt` fails with it on a
payload with zero choices or with an empty first-choice content. -/
theorem stream_contentless_succeeds (env : Env) (key model prompt body : String)
    (hkr : env.keyResult = Except.ok key) (hk : key ≠ "")
    (htr : env.transport = TransportResult.success 200 body)
    (hdone : env.doneAt = none)
    (hempty : specDeltas env.codec (scanLines body) = []) :
    ((openai.Stream env model prompt).value = "" ∧
      (openai.Stream env model prompt).error = none) ∧
    (∀ (env2 : Env) (key2 model2 prompt2 body2 : String),
      env2.keyResult = Except.ok key2 → key2 ≠ "" →
      env2.transport = TransportResult.success 200 body2 →
      env2.codec.unmarshalChatResp body2 = some ⟨[]⟩ →
      (openai.Prompt env2 model2 prompt2).error = some Err.emptyResponse) ∧
    (∀ (env2 : Env) (key2 model2 prompt2 body2 : String) (c : Choice) (cs : List Choice),
      env2.keyResult = Except.ok key2 → key2 ≠ "" →
      env2.transport = TransportResult.success 200 body2 →
      env2.codec.unmarshalChatResp body2 = some ⟨c :: cs⟩ → c.message = "" →
      (openai.Prompt env2 model2 prompt2).error = some Err.emptyResponse) := by
  refine ⟨?_, ?_, ?_⟩
  · have hs1 := send_stream env openai.name model key body [⟨"user", prompt⟩] true hkr hk htr
    rw [hdone] at hs1
    rw [streamLoop_no_cancel env.codec true (scanLines body) 0 "" []] at hs1
    rw [hempty] at hs1
    simp [openai.Stream, hs1, strJoin]
  · intro env2 key2 model2 prompt2 body2 hkr2 hk2 htr2 hun2
    simp [openai.Prompt, send, hkr2, hk2, htr2, hun2]
  · intro env2 key2 model2 prompt2 body2 c cs hkr2 hk2 htr2 hun2 hcm
    simp [openai.Prompt, send, hkr2, hk2, htr2, hun2, hcm]

/-- Claim C4 witness: the sentinel-only stream yields the empty string and nil
error, while `Prompt` on a zero-choice payload and on an empty-content payload
fails with the empty-response error. -/
theorem stream_contentless_succeeds_witness :
    ((openai.Stream envC4 "gpt-4o" "hi").value = "" ∧
      (openai.Stream envC4 "gpt-4o" "hi").error = none) ∧
    (openai.Prompt envEmptyChoices "gpt-4o" "hi").error = some Err.emptyResponse ∧
    (openai.Prompt envBlankContent "gpt-4o" "hi").error = some Err.emptyResponse := by
  have h := stream_contentless_succeeds envC4 "key" "gpt-4o" "hi" "data: [DONE]\n"
    rfl (by decide) rfl rfl (by decide)
  exact ⟨h.1,
    h.2.1 envEmptyChoices "key" "gpt-4o" "hi" "empty-choices" rfl (by decide) rfl (by decide),
    h.2.2 envBlankContent "key" "gpt-4o" "hi" "blank-content" ⟨"", ""⟩ [] rfl (by decide) rfl
      (by decide) rfl⟩

/-- Claim C5: `ChatStream` always appends the user message; the assistant
message is appended exactly when the call succeeded with a non-empty
accumulated output, and otherwise the history gains only the user message. -/
theorem chatStream_history (env : Env) (p : openai.Provider) (model msg : String) :
    ((openai.ChatStream env p model msg).1.error = none ∧
        (openai.ChatStream env p model msg).1.value ≠ "" →
      (openai.ChatStream env p model msg).2.history =
        p.history ++ [⟨"user", msg⟩,
          ⟨"assistant", (openai.ChatStream env p model msg).1.value⟩]) ∧
    ((openai.ChatStream env p model msg).1.error ≠ none ∨
        (openai.ChatStream env p model msg).1.value = "" →
      (openai.ChatStream env p model msg).2.history = p.history ++ [⟨"user", msg⟩]) := by
  have hfst := chatStream_fst env p model msg
  have herr : (openai.ChatStream env p model msg).1.error =
      (send env openai.name model (p.history ++ [⟨"user", msg⟩]) true true).error := by
    rw [hfst]
  have hval : (openai.ChatStream env p model msg).1.value =
      strJoin (send env openai.name model (p.history ++ [⟨"user", msg⟩]) true true).emitted := by
    rw [hfst]
  rw [herr, hval]
  by_cases hcond :
      (send env openai.name model (p.history ++ [⟨"user", msg⟩]) true true).error = none ∧
        strJoin (send env openai.name model (p.history ++ [⟨"user", msg⟩]) true true).emitted ≠ ""
  · have hsnd : (openai.ChatStream env p model msg).2 =
        openai.push (openai.push p "user" msg) "assistant"
          (strJoin
            (send env openai.name model (p.history ++ [⟨"user", msg⟩]) true true).emitted) := by
      simp only [openai.ChatStream, openai.copyHistory, openai.push]
      split
      · rfl
      · next hno => exact absurd hcond hno
    rw [hsnd]
    constructor
    · intro _
      simp [openai.push, List.append_assoc]
    · intro hor
      rcases hor with hne | hemp
      · exact absurd hcond.1 hne
      · exact absurd hemp hcond.2
  · have hsnd : (openai.ChatStream env p model msg).2 = openai.push p "user" msg := by
      simp only [openai.ChatStream, openai.copyHistory, openai.push]
      split
      · next hyes => exact absurd hyes hcond
      · rfl
    rw [hsnd]
    constructor
    · intro hpos
      exact absurd hpos hcond
    · intro _
      simp [openai.push]

/-- Claim C5 witness: a stream accumulating `hi` appends user and assistant
messages, a contentless stream appends only the user message. -/
theorem chatStream_history_witness :
    (openai.ChatStream envHi ⟨[]⟩ "gpt-4o" "Hello").2.history =
      [⟨"user", "Hello"⟩, ⟨"assistant", "hi"⟩] ∧
    (openai.ChatStream envEmptyStream ⟨[]⟩ "gpt-4o" "Hello").2.history =
      [⟨"user", "Hello"⟩] := by
  constructor
  · have h := (chatStream_history envHi ⟨[]⟩ "gpt-4o" "Hello").1 ⟨by decide, by decide⟩
    exact h.trans (by decide)
  · have h := (chatStream_history envEmptyStream ⟨[]⟩ "gpt-4o" "Hello").2 (Or.inr (by decide))
    exact h.trans (by decide)

/-- Claim C6: when the cancellation signal is observed at the `k`-th streaming
iteration (before the stream has ended), the call returns immediately with the
text accumulated from the first `k` frames, the deltas already handed to the
sink stay emitted, and the error is the cancellation error, a kind distinct
from the transport and empty-response errors. -/
theorem stream_cancellation_returns_partial (env : Env) (key model prompt body : String)
    (k : Nat)
    (hkr : env.keyResult = Except.ok key) (hk : key ≠ "")
    (htr : env.transport = TransportResult.success 200 body)
    (hdone : env.doneAt = some k)
    (hlen : k < (scanLines body).length)
    (hsent : (((scanLines body).take k).all fun l => !isSentinel l) = true) :
    (openai.Stream env model prompt).error = some Err.cancelled ∧
    (openai.Stream env model prompt).emitted =
      specDeltas env.codec ((scanLines body).take k) ∧
    (openai.Stream env model prompt).value =
      strJoin (specDeltas env.codec ((scanLines body).take k)) ∧
    (∀ m, Err.cancelled ≠ Err.transport m) ∧ Err.cancelled ≠ Err.emptyResponse := by
  have hs1 := send_stream env openai.name model key body [⟨"user", prompt⟩] true hkr hk htr
  have hloop := streamLoop_cancelled env.codec true k (scanLines body) 0 "" [] (by omega) hsent
  rw [hdone] at hs1
  rw [show k = 0 + k by omega] at hs1
  rw [hloop] at hs1
  refine ⟨?_, ?_, ?_, ?_, ?_⟩
  · simp [openai.Stream, hs1]
  · simp [openai.Stream, hs1]
  · simp [openai.Stream, hs1, String.empty_append]
  · intro m
    simp
  · simp

/-- Claim C6 witness: over the `h`, `i`, sentinel stream with cancellation
observed at the second iteration, `Stream` returns `h` with the cancellation
error and the already emitted `h` stays emitted. -/
theorem stream_cancellation_witness :
    (openai.Stream envCancel "gpt-4o" "hi").error = some Err.cancelled ∧
    (openai.Stream envCancel "gpt-4o" "hi").emitted = ["h"] ∧
    (openai.Stream envCancel "gpt-4o" "hi").value = "h" := by
  have h := stream_cancellation_returns_partial envCancel "key" "gpt-4o" "hi" hiBody 1
    rfl (by decide) rfl rfl (by decide) (by decide)
  exact ⟨h.1, h.2.1.trans (by decide), h.2.2.1.trans (by decide)⟩

/-- Claim C7: a sentinel frame terminates the stream successfully — replacing
everything after the first sentinel line leaves the whole `Stream` result
unchanged, so no frame after the sentinel is emitted to the sink or
accumulated, and with no cancellation the call ends with a nil error. -/
theorem sentinel_stops_stream (env env2 : Env) (key model prompt body body2 s : String)
    (l1 l2 : List String)
    (hkr : env.keyResult = Except.ok key) (hk : key ≠ "")
    (hkr2 : env2.keyResult = Except.ok key)
    (htr : env.transport = TransportResult.success 200 body)
    (htr2 : env2.transport = TransportResult.success 200 body2)
    (hcodec : env2.codec = env.codec) (hdone2 : env2.doneAt = env.doneAt)
    (hsl : scanLines body = l1 ++ s :: l2)
    (hsl2 : scanLines body2 = l1 ++ [s])
    (hs : isSentinel s = true) :
    openai.Stream env model prompt = openai.Stream env2 model prompt ∧
    (env.doneAt = none → (openai.Stream env model prompt).error = none) := by
  have hs1 := send_stream env openai.name model key body [⟨"user", prompt⟩] true hkr hk htr
  have hs2 := send_stream env2 openai.name model key body2 [⟨"user", prompt⟩] true hkr2 hk htr2
  rw [hsl] at hs1
  rw [hsl2, hcodec, hdone2] at hs2
  have heq := streamLoop_sentinel env.codec env.doneAt true s hs l1 l2 [] 0 "" []
  constructor
  · simp only [openai.Stream, hs1, hs2]
    rw [heq]
  · intro hnone
    rw [hnone] at hs1
    rw [streamLoop_no_cancel env.codec true (l1 ++ s :: l2) 0 "" []] at hs1
    simp [openai.Stream, hs1]

/-- Claim C7 witness: a stream with a delta frame after the sentinel gives the
same `Stream` result as the stream truncated at the sentinel, with nil
error. -/
theorem sentinel_stops_stream_witness :
    openai.Stream envSent1 "gpt-4o" "hi" = openai.Stream envSent2 "gpt-4o" "hi" ∧
    (openai.Stream envSent1 "gpt-4o" "hi").error = none := by
  have h := sentinel_stops_stream envSent1 envSent2 "key" "gpt-4o" "hi" sentBody1 sentBody2
    "data: [DONE]" ["data: chunk-h"] ["data: chunk-i"]
    rfl (by decide) rfl rfl rfl rfl rfl (by decide) (by decide) (by decide)
  exact ⟨h.1, h.2 rfl⟩

/-- Claim C8: while streaming (with the context not yet cancelled), a line
without the frame marker, a data frame whose payload fails to parse, and a
parsed frame with zero choices are all skipped: the loop continues on the
remaining lines with unchanged accumulator and sink trace, producing no error
and still processing the later frames. -/
theorem malformed_frame_skipped (codec : Codec) (doneAt : Option Nat) (cb : Bool)
    (line : String) (rest : List String) (i : Nat) (full : String)
    (em : List String) (hc : ctxDone doneAt i = false)
    (hskip : strStartsWith line ssePrefix = false ∨
      (strStartsWith line ssePrefix = true ∧
        trimPrefix line ssePrefix ≠ "[DONE]" ∧
        (codec.unmarshalChatResp (trimPrefix line ssePrefix) = none ∨
          codec.unmarshalChatResp (trimPrefix line ssePrefix) = some ⟨[]⟩))) :
    streamLoop codec doneAt cb (line :: rest) i full em =
      streamLoop codec doneAt cb rest (i + 1) full em := by
  rcases hskip with hsw | ⟨hsw, hd, hun | hun⟩
  · simp [streamLoop, hc, hsw]
  · simp [streamLoop, hc, hsw, hd, hun]
  · simp [streamLoop, hc, hsw, hd, hun]

/-- Claim C8 witness: a keep-alive line without the marker and a data frame
with an unparsable payload are each skipped, the loop continuing on the later
well-formed frame. -/
theorem malformed_frame_skipped_witness :
    streamLoop hiCodec none true [": keep-alive", "data: chunk-h"] 0 "" [] =
      streamLoop hiCodec none true ["data: chunk-h"] 1 "" [] ∧
    streamLoop hiCodec none true ["data: not-json", "data: chunk-h"] 0 "" [] =
      streamLoop hiCodec none true ["data: chunk-h"] 1 "" [] := by
  constructor
  · exact malformed_frame_skipped hiCodec none true ": keep-alive" ["data: chunk-h"] 0 "" []
      (by decide) (Or.inl (by decide))
  · exact malformed_frame_skipped hiCodec none true "data: not-json" ["data: chunk-h"] 0 "" []
      (by decide) (Or.inr ⟨by decide, by decide, Or.inl (by decide)⟩)

/-- Claim C9: `Register` panics (modelled as `none`) whenever some provider in
the batch bears an already-registered name, and never panics when the batch's
names are pairwise distinct and all unregistered. -/
theorem register_duplicate_panics :
    (∀ (r : providers.Registry) (ps : List providers.ProviderInfo)
        (q : providers.ProviderInfo), q ∈ ps →
      (providers.Lookup r q.name).isSome = true →
      providers.Register r ps = none) ∧
    (∀ (r : providers.Registry) (ps : List providers.ProviderInfo),
      (ps.map providers.ProviderInfo.name).Nodup →
      (∀ q ∈ ps, providers.Lookup r q.name = none) →
      (providers.Register r ps).isSome = true) := by
  constructor
  · intro r ps
    induction ps generalizing r with
    | nil => intro q hq _; simp at hq
    | cons q0 rest ih =>
      intro q hq hsome
      rcases List.mem_cons.mp hq with rfl | hmem
      · have : providers.registerOne r q = none := by
          simp only [providers.Lookup] at hsome
          simp only [providers.registerOne]
          rw [if_pos hsome]
        simp [providers.Register, List.foldlM_cons, this]
      · cases hreg : providers.registerOne r q0 with
        | none => simp [providers.Register, List.foldlM_cons, hreg]
        | some r1 =>
          have hr1 : r1.data = r.data ++ [(q0.name, q0)] := by
            simp only [providers.registerOne] at hreg
            by_cases hdup : (r.data.lookup q0.name).isSome = true
            · rw [if_pos hdup] at hreg; exact absurd hreg (by simp)
            · rw [if_neg hdup] at hreg
              cases hreg
              rfl
          have hnext : (providers.Lookup r1 q.name).isSome = true := by
            simp only [providers.Lookup] at hsome ⊢
            rw [hr1]
            exact lookup_append_isSome r.data [(q0.name, q0)] q.name hsome
          have := ih r1 q hmem hnext
          simp [providers.Register, List.foldlM_cons, hreg]
          simpa [providers.Register] using this
  · intro r ps
    induction ps generalizing r with
    | nil => intro _ _; simp [providers.Register]
    | cons q0 rest ih =>
      intro hnodup hnone
      have hq0 : providers.Lookup r q0.name = none := hnone q0 (by simp)
      have hreg : providers.registerOne r q0 = some ⟨r.data ++ [(q0.name, q0)]⟩ := by
        simp only [providers.registerOne, providers.Lookup] at hq0 ⊢
        rw [if_neg (by simp [hq0])]
      have hrest : ∀ q ∈ rest,
          providers.Lookup (⟨r.data ++ [(q0.name, q0)]⟩ : providers.Registry) q.name =
            none := by
        intro q hq
        have hname : q.name ≠ q0.name := by
          simp only [List.map_cons, List.nodup_cons] at hnodup
          intro heq
          exact hnodup.1 (heq ▸ List.mem_map_of_mem providers.ProviderInfo.name hq)
        have hqn : r.data.lookup q.name = none := hnone q (by simp [hq])
        simp only [providers.Lookup]
        rw [lookup_append_none r.data [(q0.name, q0)] q.name hqn]
        simp only [List.lookup]
        rw [beq_eq_false_iff_ne.mpr hname]
      have := ih ⟨r.data ++ [(q0.name, q0)]⟩ (by
        simp only [List.map_cons, List.nodup_cons] at hnodup
        exact hnodup.2) hrest
      simp [providers.Register, List.foldlM_cons, hreg]
      simpa [providers.Register] using this

/-- Claim C9 witness: registering `openai` into a registry already holding
`openai` panics, while registering the fresh pair `openai`, `google` into the
empty registry succeeds. -/
theorem register_duplicate_panics_witness :
    providers.Register dupRegistry [⟨"openai"⟩] = none ∧
    (providers.Register providers.NewRegistry [⟨"openai"⟩, ⟨"google"⟩]).isSome = true := by
  constructor
  · exact register_duplicate_panics.1 dupRegistry [⟨"openai"⟩] ⟨"openai"⟩
      (by decide) (by decide)
  · exact register_duplicate_panics.2 providers.NewRegistry [⟨"openai"⟩, ⟨"google"⟩]
      (by decide) (by decide)

/-- Claim C10: a non-OK response whose body does not unmarshal as an error
payload always yields the generic status error and never the invalid-API-key
error, even for a 401; the invalid-API-key classification requires the body to
unmarshal. -/
theorem unparsedErrorBody_is_generic (env : Env) (providerName model : String)
    (msgs : List Message) (stream cb : Bool) (key : String) (status : Nat) (body : String)
    (hkr : env.keyResult = Except.ok key) (hk : key ≠ "")
    (htr : env.transport = TransportResult.success status body)
    (hst : status ≠ 200)
    (hun : env.codec.unmarshalApiErr body = none) :
    ((send env providerName model msgs stream cb).error =
      some (Err.httpStatus status body)) ∧
    (∀ p2, (send env providerName model msgs stream cb).error ≠
      some (Err.invalidAPIKey p2)) ∧
    (∀ (codec : Codec) (prov : String) (st : Nat) (b : String) (p2 : String),
      codec.unmarshalApiErr b = none →
      handleAPIError codec prov st b ≠ Err.invalidAPIKey p2) := by
  have h1 : (send env providerName model msgs stream cb).error =
      some (Err.httpStatus status body) := by
    simp [send, hkr, hk, htr, hst, handleAPIError, hun]
  refine ⟨h1, ?_, ?_⟩
  · intro p2
    rw [h1]
    simp
  · intro codec prov st b p2 hb
    simp [handleAPIError, hb]

/-- Claim C10 witness: a 401 response with an unparsable body produces the
generic status error, not the invalid-API-key error. -/
theorem unparsedErrorBody_is_generic_witness :
    (send envStatus401 "openai" "gpt-4o" [⟨"user", "hi"⟩] false false).error =
      some (Err.httpStatus 401 "invalid json response") ∧
    (send envStatus401 "openai" "gpt-4o" [⟨"user", "hi"⟩] false false).error ≠
      some (Err.invalidAPIKey "openai") := by
  have h := unparsedErrorBody_is_generic envStatus401 "openai" "gpt-4o" [⟨"user", "hi"⟩]
    false false "key" 401 "invalid json response" rfl (by decide) rfl (by decide) rfl
  exact ⟨h.1, h.2.1 "openai"⟩
